import Mathlib

/-!
Verification of the `acrcloud` client library (`src/acrcloud.py`).

The file shallowly embeds the two classes of the source,
`ACRCloudConsole` and `ACRCloudStreamMonitor`, as pure Lean functions.

Modelling conventions:
* Python `bytes` are `List Nat` with every element below 256.
* 32-bit machine arithmetic is `Nat` with explicit reduction `% 2^32`.
* `time.time()` is an ambient clock, so every console operation takes the
  timestamp string as an explicit parameter; a call at a given wall-clock
  instant corresponds to applying the function at that timestamp string.
* `requests.<method>(url, data, headers)` performs the network call; each
  operation is split into the request value it issues (method, url,
  headers, form body) and the pure function it applies to the response
  (`response.text` after forcing `response.encoding = "utf-8"`, modelled
  as UTF-8 decoding of the raw body, or the raw response itself for
  `month_results`).
-/

/-- Reduce to a 32-bit word. -/
def w32 (n : Nat) : Nat := n % 4294967296

/-- Rotate a 32-bit word left by `s` bits. -/
def rotl (s n : Nat) : Nat := w32 ((n <<< s) ||| (n >>> (32 - s)))

/-- Bitwise complement of a 32-bit word. -/
def not32 (n : Nat) : Nat := n ^^^ 4294967295

/-- SHA-1 round function `f_t` (FIPS 180-1). -/
def sha1F (t b c d : Nat) : Nat :=
  if t < 20 then (b &&& c) ||| (not32 b &&& d)
  else if t < 40 then b ^^^ c ^^^ d
  else if t < 60 then (b &&& c) ||| (b &&& d) ||| (c &&& d)
  else b ^^^ c ^^^ d

/-- SHA-1 round constant `K_t`. -/
def sha1K (t : Nat) : Nat :=
  if t < 20 then 0x5A827999
  else if t < 40 then 0x6ED9EBA1
  else if t < 60 then 0x8F1BBCDC
  else 0xCA62C1D6

/-- The five-word SHA-1 chaining state. -/
structure Sha1State where
  a : Nat
  b : Nat
  c : Nat
  d : Nat
  e : Nat
deriving Repr, DecidableEq

/-- SHA-1 initial chaining value. -/
def sha1IV : Sha1State :=
  ⟨0x67452301, 0xEFCDAB89, 0x98BADCFE, 0x10325476, 0xC3D2E1F0⟩

/-- Group a byte list into big-endian 32-bit words (fuel-driven). -/
def bytesToWordsAux : Nat → List Nat → List Nat
  | 0, _ => []
  | _, [] => []
  | f + 1, b0 :: b1 :: b2 :: b3 :: rest =>
      (b0 * 16777216 + b1 * 65536 + b2 * 256 + b3) :: bytesToWordsAux f rest
  | _ + 1, _ => []

/-- Group a byte list into big-endian 32-bit words. -/
def bytesToWords (l : List Nat) : List Nat := bytesToWordsAux l.length l

/-- Extend the 16 message-schedule words by `k` further words
(`W_t = ROTL1 (W_(t-3) xor W_(t-8) xor W_(t-14) xor W_(t-16))`). -/
def sha1Extend : Nat → List Nat → List Nat
  | 0, ws => ws
  | k + 1, ws =>
      let n := ws.length
      let w := rotl 1 ((ws.getD (n - 3) 0) ^^^ (ws.getD (n - 8) 0) ^^^
        (ws.getD (n - 14) 0) ^^^ (ws.getD (n - 16) 0))
      sha1Extend k (ws ++ [w])

/-- Run the 80 SHA-1 rounds over the schedule words starting at round `t`. -/
def sha1Rounds : List Nat → Nat → Sha1State → Sha1State
  | [], _, s => s
  | w :: ws, t, s =>
      let temp := w32 (rotl 5 s.a + sha1F t s.b s.c s.d + s.e + sha1K t + w)
      sha1Rounds ws (t + 1) ⟨temp, s.a, rotl 30 s.b, s.c, s.d⟩

/-- Compress one 64-byte block into the chaining state. -/
def sha1Compress (h : Sha1State) (block : List Nat) : Sha1State :=
  let ws := sha1Extend 64 (bytesToWords block)
  let s := sha1Rounds ws 0 h
  ⟨w32 (h.a + s.a), w32 (h.b + s.b), w32 (h.c + s.c), w32 (h.d + s.d), w32 (h.e + s.e)⟩

/-- Big-endian 8-byte serialization of a length value. -/
def u64be (n : Nat) : List Nat :=
  [n >>> 56 % 256, n >>> 48 % 256, n >>> 40 % 256, n >>> 32 % 256,
   n >>> 24 % 256, n >>> 16 % 256, n >>> 8 % 256, n % 256]

/-- SHA-1 padding: append `0x80`, zero bytes to 56 mod 64, then the 64-bit
big-endian bit length. -/
def sha1Pad (msg : List Nat) : List Nat :=
  let len := msg.length
  let zeros := (119 - len % 64) % 64
  msg ++ [0x80] ++ List.replicate zeros 0 ++ u64be (len * 8)

/-- Split a list into 64-byte chunks (fuel-driven). -/
def chunks64Aux : Nat → List Nat → List (List Nat)
  | 0, _ => []
  | _, [] => []
  | f + 1, l => l.take 64 :: chunks64Aux f (l.drop 64)

/-- Split a list into 64-byte chunks. -/
def chunks64 (l : List Nat) : List (List Nat) := chunks64Aux l.length l

/-- Big-endian 4-byte serialization of a 32-bit word. -/
def u32be (n : Nat) : List Nat := [n >>> 24 % 256, n >>> 16 % 256, n >>> 8 % 256, n % 256]

/-- SHA-1 digest of a byte list, as 20 bytes. -/
def sha1 (msg : List Nat) : List Nat :=
  let h := (chunks64 (sha1Pad msg)).foldl sha1Compress sha1IV
  u32be h.a ++ u32be h.b ++ u32be h.c ++ u32be h.d ++ u32be h.e

/-- HMAC-SHA1 (FIPS 198-1, block size 64), as `hmac.new(key, msg, sha1)`. -/
def hmacSha1 (key msg : List Nat) : List Nat :=
  let k0 := if 64 < key.length then sha1 key else key
  let kb := k0 ++ List.replicate (64 - k0.length) 0
  let ipad := kb.map (fun b => b ^^^ 0x36)
  let opad := kb.map (fun b => b ^^^ 0x5C)
  sha1 (opad ++ sha1 (ipad ++ msg))

/-- Byte value of the standard base64 alphabet at index `n`. -/
def b64Char (n : Nat) : Nat :=
  if n < 26 then 65 + n
  else if n < 52 then 97 + (n - 26)
  else if n < 62 then 48 + (n - 52)
  else if n = 62 then 43 else 47

/-- Standard base64 with padding, as `base64.b64encode` (fuel-driven). -/
def b64EncodeAux : Nat → List Nat → List Nat
  | 0, _ => []
  | _, [] => []
  | _ + 1, [b0] =>
      [b64Char (b0 >>> 2), b64Char ((b0 &&& 3) <<< 4), 61, 61]
  | _ + 1, [b0, b1] =>
      [b64Char (b0 >>> 2), b64Char (((b0 &&& 3) <<< 4) ||| (b1 >>> 4)),
       b64Char ((b1 &&& 15) <<< 2), 61]
  | f + 1, b0 :: b1 :: b2 :: rest =>
      b64Char (b0 >>> 2) :: b64Char (((b0 &&& 3) <<< 4) ||| (b1 >>> 4)) ::
      b64Char (((b1 &&& 15) <<< 2) ||| (b2 >>> 6)) :: b64Char (b2 &&& 63) ::
      b64EncodeAux f rest

/-- Standard base64 with padding, as `base64.b64encode`. -/
def b64Encode (l : List Nat) : List Nat := b64EncodeAux l.length l

/-- UTF-8 encoding of one character. -/
def utf8Char (c : Char) : List Nat :=
  let n := c.toNat
  if n < 0x80 then [n]
  else if n < 0x800 then [0xC0 ||| (n >>> 6), 0x80 ||| (n &&& 0x3F)]
  else if n < 0x10000 then
    [0xE0 ||| (n >>> 12), 0x80 ||| ((n >>> 6) &&& 0x3F), 0x80 ||| (n &&& 0x3F)]
  else
    [0xF0 ||| (n >>> 18), 0x80 ||| ((n >>> 12) &&& 0x3F),
     0x80 ||| ((n >>> 6) &&& 0x3F), 0x80 ||| (n &&& 0x3F)]

/-- UTF-8 encoding of a string, as Python `str.encode()`. -/
def utf8Encode (s : String) : List Nat := (s.data.map utf8Char).flatten

set_option maxRecDepth 100000

/-- FIPS 180-1 test vector: `SHA1("abc")`. -/
theorem sha1_abc_test_vector : sha1 [97, 98, 99] =
    [0xa9, 0x99, 0x3e, 0x36, 0x47, 0x06, 0x81, 0x6a, 0xba, 0x3e,
     0x25, 0x71, 0x78, 0x50, 0xc2, 0x6c, 0x9c, 0xd0, 0xd8, 0x9d] := by decide

/-- UTF-8 decoding of a byte list (fuel-driven); invalid sequences are cut
short, which never happens on the well-formed bodies the claims use. -/
def utf8DecodeAux : Nat → List Nat → List Char
  | 0, _ => []
  | _, [] => []
  | f + 1, b :: bs =>
      if b < 0x80 then Char.ofNat b :: utf8DecodeAux f bs
      else if b < 0xE0 then
        match bs with
        | b1 :: bs2 =>
            Char.ofNat (((b &&& 0x1F) <<< 6) ||| (b1 &&& 0x3F)) :: utf8DecodeAux f bs2
        | [] => []
      else if b < 0xF0 then
        match bs with
        | b1 :: b2 :: bs2 =>
            Char.ofNat (((b &&& 0x0F) <<< 12) ||| ((b1 &&& 0x3F) <<< 6) ||| (b2 &&& 0x3F)) ::
            utf8DecodeAux f bs2
        | _ => []
      else
        match bs with
        | b1 :: b2 :: b3 :: bs2 =>
            Char.ofNat (((b &&& 0x07) <<< 18) ||| ((b1 &&& 0x3F) <<< 12) |||
              ((b2 &&& 0x3F) <<< 6) ||| (b3 &&& 0x3F)) :: utf8DecodeAux f bs2
        | _ => []

/-- UTF-8 decoding of a byte list. -/
def utf8Decode (l : List Nat) : String := String.mk (utf8DecodeAux l.length l)

/-- An HTTP response as delivered by `requests`: a status code and the raw
body bytes. -/
structure Response where
  status : Nat
  body : List Nat
deriving Repr, DecidableEq

/-- `response.text` after the source sets `response.encoding = "utf-8"`:
the body decoded as UTF-8 text. -/
def Response.text (r : Response) : String := utf8Decode r.body

/-- The header dict built by `ACRCloudConsole._headers` (fixed keys
`access-key`, `signature-version`, `signature`, `timestamp`; the signature
value is the `bytes` result of `base64.b64encode`). -/
structure Headers where
  access_key : String
  signature_version : String
  signature : List Nat
  timestamp : String
deriving Repr, DecidableEq

/-- A value in a `requests` form-data dict: the source puts both `str` and
`int` values in its `data` dicts. -/
inductive FormValue
  | s (v : String)
  | i (v : Int)
deriving Repr, DecidableEq

/-- The single HTTP request an operation issues: the verb of the
`requests.<verb>` call actually made, the full URL, the headers (none for
the unsigned monitoring API), and the form body. -/
structure Request where
  method : String
  url : String
  headers : Option Headers
  data : List (String × FormValue)
deriving Repr, DecidableEq

/-- Hexadecimal digit character (lowercase), as used by `json.dumps`
escapes. -/
def hexDigit (n : Nat) : Char :=
  if n < 10 then Char.ofNat (48 + n) else Char.ofNat (87 + n)

/-- Four-digit lowercase hex `\uXXXX` escape body. -/
def uEscape (n : Nat) : List Char :=
  ['\\', 'u', hexDigit (n >>> 12 &&& 15), hexDigit (n >>> 8 &&& 15),
   hexDigit (n >>> 4 &&& 15), hexDigit (n &&& 15)]

/-- Escaping of one character in a JSON string, as CPython `json.dumps`
with its default `ensure_ascii=True`. -/
def jsonEscapeChar (c : Char) : List Char :=
  let n := c.toNat
  if c = '"' then ['\\', '"']
  else if c = '\\' then ['\\', '\\']
  else if n = 10 then ['\\', 'n']
  else if n = 13 then ['\\', 'r']
  else if n = 9 then ['\\', 't']
  else if n = 8 then ['\\', 'b']
  else if n = 12 then ['\\', 'f']
  else if n < 0x20 then uEscape n
  else if n < 0x7F then [c]
  else if n < 0x10000 then uEscape n
  else uEscape (0xD800 + ((n - 0x10000) >>> 10)) ++ uEscape (0xDC00 + ((n - 0x10000) &&& 0x3FF))

/-- A JSON string literal, as `json.dumps` renders one. -/
def jsonString (s : String) : String :=
  "\"" ++ String.mk (s.data.map jsonEscapeChar).flatten ++ "\""

/-- A JSON object with string values, rendered with the `json.dumps`
default separators (`", "` between items, `": "` after a key). -/
def jsonDict (d : List (String × String)) : String :=
  "\x7b" ++ String.intercalate ", " (d.map fun p => jsonString p.1 ++ ": " ++ jsonString p.2) ++
    "\x7d"

/-- `json.dumps` on a list of string-valued dicts — the shape the source
passes for `buckets`. -/
def jsonDumps (l : List (List (String × String))) : String :=
  "[" ++ String.intercalate ", " (l.map jsonDict) ++ "]"

/-- The bucket list type: a Python list of dicts with string values. -/
abbrev Buckets := List (List (String × String))

/-- `ACRCloudConsole(account_access_key, account_access_secret)`: the two
credential fields set by `__init__`. -/
structure ACRCloudConsole where
  access_key : String
  access_secret : List Nat
deriving Repr, DecidableEq

namespace ACRCloudConsole

/-- `self.host`, set to a constant by `__init__`. -/
def host (_c : ACRCloudConsole) : String := "api.acrcloud.com"

/-- `self.signature_version`, set to a constant by `__init__`. -/
def signature_version (_c : ACRCloudConsole) : String := "1"

/-- `ACRCloudConsole._sign`: base64 of the HMAC-SHA1 digest of the UTF-8
encoded message under the account secret. -/
def sign (c : ACRCloudConsole) (string_to_sign : String) : List Nat :=
  b64Encode (hmacSha1 c.access_secret (utf8Encode string_to_sign))

/-- `ACRCloudConsole._headers`. -/
def headers (c : ACRCloudConsole) (signature : List Nat) (timestamp : String) : Headers :=
  ⟨c.access_key, c.signature_version, signature, timestamp⟩

/-- `add_project`: the request issued (via `requests.post`) and the pure
function applied to the response (`response.text` as UTF-8). The ambient
`time.time()` is the explicit `timestamp` parameter. -/
def add_project (c : ACRCloudConsole) (timestamp : String) (project_name : String)
    (type_ : String) (buckets : Option Buckets) ( audio_type : Int) (external_id : String)
    (region : String) : Request × (Response → String) :=
  let bkts := match buckets with
    | none => [[("name", "ACRCloud Music")]]
    | some b => b
  let http_method := "POST"
  let uri := "/v1/projects"
  let string_to_sign :=
    String.intercalate "\n" [http_method, uri, c.access_key, c.signature_version, timestamp]
  let signature := c.sign string_to_sign
  let hs := c.headers signature timestamp
  let data := [("name", FormValue.s project_name), ("region", FormValue.s region),
    ("type", FormValue.s type_), ("buckets", FormValue.s (jsonDumps bkts)),
    ("audio_type", FormValue.i audio_type), ("external_id", FormValue.s external_id)]
  (⟨"POST", "https://" ++ c.host ++ uri, some hs, data⟩, Response.text)

/-- `add_project` with every optional argument omitted (the Python default
values of the signature). -/
def add_project_defaults (c : ACRCloudConsole) (timestamp : String)
    (project_name : String) : Request × (Response → String) :=
  c.add_project timestamp project_name "BM-ACRC" none 2 "" "ap-southeast-1"

/-- `update_project` (issued via `requests.post`). -/
def update_project (c : ACRCloudConsole) (timestamp : String) (project_name : String)
    (buckets : Option Buckets) : Request × (Response → String) :=
  let bkts := match buckets with
    | none => [[("name", "ACRCloud Music")]]
    | some b => b
  let http_method := "POST"
  let uri := "/v1/projects/" ++ project_name
  let string_to_sign :=
    String.intercalate "\n" [http_method, uri, c.access_key, c.signature_version, timestamp]
  let signature := c.sign string_to_sign
  let hs := c.headers signature timestamp
  let data := [("buckets", FormValue.s (jsonDumps bkts))]
  (⟨"POST", "https://" ++ c.host ++ uri, some hs, data⟩, Response.text)

/-- `delete_project` (issued via `requests.delete`). -/
def delete_project (c : ACRCloudConsole) (timestamp : String) (project_name : String) :
    Request × (Response → String) :=
  let http_method := "DELETE"
  let uri := "/v1/projects/" ++ project_name
  let string_to_sign :=
    String.intercalate "\n" [http_method, uri, c.access_key, c.signature_version, timestamp]
  let signature := c.sign string_to_sign
  let hs := c.headers signature timestamp
  let data := [("name", FormValue.s project_name)]
  (⟨"DELETE", "https://" ++ c.host ++ uri, some hs, data⟩, Response.text)

/-- `get_project` (issued via `requests.get`, no body). -/
def get_project (c : ACRCloudConsole) (timestamp : String) (project_name : String) :
    Request × (Response → String) :=
  let http_method := "GET"
  let uri := "/v1/projects/" ++ project_name
  let string_to_sign :=
    String.intercalate "\n" [http_method, uri, c.access_key, c.signature_version, timestamp]
  let signature := c.sign string_to_sign
  let hs := c.headers signature timestamp
  (⟨"GET", "https://" ++ c.host ++ uri, some hs, []⟩, Response.text)

/-- `list_projects` (issued via `requests.get`, no body). -/
def list_projects (c : ACRCloudConsole) (timestamp : String) :
    Request × (Response → String) :=
  let http_method := "GET"
  let uri := "/v1/projects"
  let string_to_sign :=
    String.intercalate "\n" [http_method, uri, c.access_key, c.signature_version, timestamp]
  let signature := c.sign string_to_sign
  let hs := c.headers signature timestamp
  (⟨"GET", "https://" ++ c.host ++ uri, some hs, []⟩, Response.text)

/-- `add_monitor` (issued via `requests.post`). -/
def add_monitor (c : ACRCloudConsole) (timestamp : String) (project_name : String)
    (stream_name : String) (url : String) (region : String) (realtime : Int)
    (record : Int) : Request × (Response → String) :=
  let http_method := "POST"
  let uri := "/v1/monitor-streams"
  let string_to_sign :=
    String.intercalate "\n" [http_method, uri, c.access_key, c.signature_version, timestamp]
  let signature := c.sign string_to_sign
  let hs := c.headers signature timestamp
  let data := [("project_name", FormValue.s project_name),
    ("stream_name", FormValue.s stream_name), ("url", FormValue.s url),
    ("region", FormValue.s region), ("realtime", FormValue.i realtime),
    ("record", FormValue.i record)]
  (⟨"POST", "https://" ++ c.host ++ uri, some hs, data⟩, Response.text)

/-- `add_monitor` with every optional argument omitted (the Python default
values of the signature). -/
def add_monitor_defaults (c : ACRCloudConsole) (timestamp : String) (project_name : String)
    (stream_name : String) (url : String) : Request × (Response → String) :=
  c.add_monitor timestamp project_name stream_name url "ap-southeast-1" 1 0

/-- `update_monitor` (issued via `requests.put`). -/
def update_monitor (c : ACRCloudConsole) (timestamp : String) (stream_id : String)
    (stream_name : String) (url : String) (region : String) (realtime : Int)
    (record : Int) : Request × (Response → String) :=
  let http_method := "PUT"
  let uri := "/v1/monitor-streams/" ++ stream_id
  let string_to_sign :=
    String.intercalate "\n" [http_method, uri, c.access_key, c.signature_version, timestamp]
  let signature := c.sign string_to_sign
  let hs := c.headers signature timestamp
  let data := [("stream_name", FormValue.s stream_name), ("url", FormValue.s url),
    ("region", FormValue.s region), ("realtime", FormValue.i realtime),
    ("record", FormValue.i record)]
  (⟨"PUT", "https://" ++ c.host ++ uri, some hs, data⟩, Response.text)

/-- `get_all_monitors`: the source sets `http_method = "GET"` and signs it,
but the call on line 255 is `requests.put`, so the issued verb is PUT. -/
def get_all_monitors (c : ACRCloudConsole) (timestamp : String) (project_name : String) :
    Request × (Response → String) :=
  let http_method := "GET"
  let uri := "/v1/monitor-streams"
  let string_to_sign :=
    String.intercalate "\n" [http_method, uri, c.access_key, c.signature_version, timestamp]
  let signature := c.sign string_to_sign
  let hs := c.headers signature timestamp
  let data := [("project_name", FormValue.s project_name)]
  (⟨"PUT", "https://" ++ c.host ++ uri, some hs, data⟩, Response.text)

/-- `get_monitor` (issued via `requests.get`, no body). -/
def get_monitor (c : ACRCloudConsole) (timestamp : String) (stream_id : String) :
    Request × (Response → String) :=
  let http_method := "GET"
  let uri := "/v1/monitor-streams/" ++ stream_id
  let string_to_sign :=
    String.intercalate "\n" [http_method, uri, c.access_key, c.signature_version, timestamp]
  let signature := c.sign string_to_sign
  let hs := c.headers signature timestamp
  (⟨"GET", "https://" ++ c.host ++ uri, some hs, []⟩, Response.text)

/-- `delete_monitor` (issued via `requests.delete`, no body). -/
def delete_monitor (c : ACRCloudConsole) (timestamp : String) (stream_id : String) :
    Request × (Response → String) :=
  let http_method := "DELETE"
  let uri := "/v1/monitor-streams/" ++ stream_id
  let string_to_sign :=
    String.intercalate "\n" [http_method, uri, c.access_key, c.signature_version, timestamp]
  let signature := c.sign string_to_sign
  let hs := c.headers signature timestamp
  (⟨"DELETE", "https://" ++ c.host ++ uri, some hs, []⟩, Response.text)

/-- `action_monitor` (issued via `requests.put`, no body); the `action`
string is interpolated into the path verbatim. -/
def action_monitor (c : ACRCloudConsole) (timestamp : String) (stream_id : String)
    (action : String) : Request × (Response → String) :=
  let http_method := "PUT"
  let uri := "/v1/monitor-streams/" ++ stream_id ++ "/" ++ action
  let string_to_sign :=
    String.intercalate "\n" [http_method, uri, c.access_key, c.signature_version, timestamp]
  let signature := c.sign string_to_sign
  let hs := c.headers signature timestamp
  (⟨"PUT", "https://" ++ c.host ++ uri, some hs, []⟩, Response.text)

/-- `pause_monitor`: returns `self.action_monitor(stream_id, "pause")`. -/
def pause_monitor (c : ACRCloudConsole) (timestamp : String) (stream_id : String) :
    Request × (Response → String) :=
  c.action_monitor timestamp stream_id "pause"

/-- `restart_monitor`: returns `self.action_monitor(stream_id, "restart")`. -/
def restart_monitor (c : ACRCloudConsole) (timestamp : String) (stream_id : String) :
    Request × (Response → String) :=
  c.action_monitor timestamp stream_id "restart"

end ACRCloudConsole

/-- `ACRCloudStreamMonitor(project_access_key, stream_id)`. -/
structure ACRCloudStreamMonitor where
  access_key : String
  stream_id : String
deriving Repr, DecidableEq

namespace ACRCloudStreamMonitor

/-- `last_results`: one unsigned `requests.get`; returns `response.text`
decoded as UTF-8. -/
def last_results (m : ACRCloudStreamMonitor) : Request × (Response → String) :=
  let requrl := "https://api.acrcloud.com/v1/monitor-streams/" ++ m.stream_id ++
    "/results?access_key=" ++ m.access_key
  (⟨"GET", requrl, none, []⟩, Response.text)

/-- `current_results`: one unsigned `requests.get`; returns `response.text`
decoded as UTF-8. -/
def current_results (m : ACRCloudStreamMonitor) : Request × (Response → String) :=
  let requrl := "https://api.acrcloud.com/v1/monitor-streams/" ++ m.stream_id ++
    "/results?access_key=" ++ m.access_key ++ "&type=current"
  (⟨"GET", requrl, none, []⟩, Response.text)

/-- `multiple_last_results`: one unsigned `requests.get`; the integer
`limit` is interpolated into the query via `str.format`. -/
def multiple_last_results (m : ACRCloudStreamMonitor) (limit : Int) :
    Request × (Response → String) :=
  let requrl := "https://api.acrcloud.com/v1/monitor-streams/" ++ m.stream_id ++
    "/results?access_key=" ++ m.access_key ++ "&limit=" ++ toString limit
  (⟨"GET", requrl, none, []⟩, Response.text)

/-- `day_results`: one unsigned `requests.get`. -/
def day_results (m : ACRCloudStreamMonitor) (date : String) :
    Request × (Response → String) :=
  let requrl := "https://api.acrcloud.com/v1/monitor-streams/" ++ m.stream_id ++
    "/results?access_key=" ++ m.access_key ++ "&date=" ++ date
  (⟨"GET", requrl, none, []⟩, Response.text)

/-- `month_results`: one unsigned `requests.get` to the archive host; the
source returns the `response` object itself, undecoded. -/
def month_results (m : ACRCloudStreamMonitor) (month : String) :
    Request × (Response → Response) :=
  let requrl := "https://monitoring-result.acrcloud.com/" ++ m.access_key ++ "/" ++
    m.stream_id ++ "/" ++ month ++ ".zip"
  (⟨"GET", requrl, none, []⟩, fun response => response)

/-- `period_results`: one unsigned `requests.get`. -/
def period_results (m : ACRCloudStreamMonitor) (begin_time : String) (end_time : String) :
    Request × (Response → String) :=
  let requrl := "https://api.acrcloud.com/v1/monitor-streams/" ++ m.stream_id ++
    "/results?access_key=" ++ m.access_key ++ "&begin_time=" ++ begin_time ++
    "&end_time=" ++ end_time
  (⟨"GET", requrl, none, []⟩, Response.text)

/-- `period_results` with the `end_time` argument omitted (the Python
default value `""` of the signature). -/
def period_results_default (m : ACRCloudStreamMonitor) (begin_time : String) :
    Request × (Response → String) :=
  m.period_results begin_time ""

end ACRCloudStreamMonitor

/-- C1: `ACRCloudConsole._sign(message)` equals the base64 encoding
(standard alphabet, with padding) of the HMAC-SHA1 digest keyed by the
account secret over the UTF-8 encoding of the message; being a pure
function of `(secret, message)`, identical inputs always yield identical
output; and for secret `b"abc"` and message
`"GET\n/v1/projects\nK1\n1\n1000.0"` the output is byte for byte the
reference value `b"8S69fcB2EildD0mQCKRZbKY9ank="`. -/
theorem C1_sign_is_base64_hmac_sha1 :
    (∀ (c : ACRCloudConsole) (message : String),
       c.sign message = b64Encode (hmacSha1 c.access_secret (utf8Encode message))) ∧
    ACRCloudConsole.sign ⟨"K1", [97, 98, 99]⟩ "GET\n/v1/projects\nK1\n1\n1000.0" =
      b64Encode (hmacSha1 [97, 98, 99]
        (utf8Encode "GET\n/v1/projects\nK1\n1\n1000.0")) ∧
    ACRCloudConsole.sign ⟨"K1", [97, 98, 99]⟩ "GET\n/v1/projects\nK1\n1\n1000.0" =
      [56, 83, 54, 57, 102, 99, 66, 50, 69, 105, 108, 100, 68, 48, 109, 81,
       67, 75, 82, 90, 98, 75, 89, 57, 97, 110, 107, 61] :=
  ⟨fun _ _ => rfl, rfl, by decide⟩

/-- C2: every signed console operation signs exactly the newline-join of
`[httpMethod, uriPath, accessKey, signatureVersion, timestampString]` in
that order, and the timestamp inside the signed string is the same string
sent as the `timestamp` header: the issued request's headers are exactly
`⟨accessKey, signatureVersion, sign(join), timestamp⟩`. -/
theorem C2_signed_string_shape :
    (∀ (c : ACRCloudConsole) (ts p ty : String) (bk : Option Buckets) (au : Int)
       (ex re : String),
       (c.add_project ts p ty bk au ex re).1.headers =
         some ⟨c.access_key, c.signature_version,
           c.sign (String.intercalate "\n"
             ["POST", "/v1/projects", c.access_key, c.signature_version, ts]), ts⟩) ∧
    (∀ (c : ACRCloudConsole) (ts p : String) (bk : Option Buckets),
       (c.update_project ts p bk).1.headers =
         some ⟨c.access_key, c.signature_version,
           c.sign (String.intercalate "\n"
             ["POST", "/v1/projects/" ++ p, c.access_key, c.signature_version, ts]), ts⟩) ∧
    (∀ (c : ACRCloudConsole) (ts p : String),
       (c.delete_project ts p).1.headers =
         some ⟨c.access_key, c.signature_version,
           c.sign (String.intercalate "\n"
             ["DELETE", "/v1/projects/" ++ p, c.access_key, c.signature_version, ts]), ts⟩) ∧
    (∀ (c : ACRCloudConsole) (ts p : String),
       (c.get_project ts p).1.headers =
         some ⟨c.access_key, c.signature_version,
           c.sign (String.intercalate "\n"
             ["GET", "/v1/projects/" ++ p, c.access_key, c.signature_version, ts]), ts⟩) ∧
    (∀ (c : ACRCloudConsole) (ts : String),
       (c.list_projects ts).1.headers =
         some ⟨c.access_key, c.signature_version,
           c.sign (String.intercalate "\n"
             ["GET", "/v1/projects", c.access_key, c.signature_version, ts]), ts⟩) ∧
    (∀ (c : ACRCloudConsole) (ts p sn u re : String) (rt rc : Int),
       (c.add_monitor ts p sn u re rt rc).1.headers =
         some ⟨c.access_key, c.signature_version,
           c.sign (String.intercalate "\n"
             ["POST", "/v1/monitor-streams", c.access_key, c.signature_version, ts]), ts⟩) ∧
    (∀ (c : ACRCloudConsole) (ts sid sn u re : String) (rt rc : Int),
       (c.update_monitor ts sid sn u re rt rc).1.headers =
         some ⟨c.access_key, c.signature_version,
           c.sign (String.intercalate "\n"
             ["PUT", "/v1/monitor-streams/" ++ sid, c.access_key, c.signature_version,
              ts]), ts⟩) ∧
    (∀ (c : ACRCloudConsole) (ts p : String),
       (c.get_all_monitors ts p).1.headers =
         some ⟨c.access_key, c.signature_version,
           c.sign (String.intercalate "\n"
             ["GET", "/v1/monitor-streams", c.access_key, c.signature_version, ts]), ts⟩) ∧
    (∀ (c : ACRCloudConsole) (ts sid : String),
       (c.get_monitor ts sid).1.headers =
         some ⟨c.access_key, c.signature_version,
           c.sign (String.intercalate "\n"
             ["GET", "/v1/monitor-streams/" ++ sid, c.access_key, c.signature_version,
              ts]), ts⟩) ∧
    (∀ (c : ACRCloudConsole) (ts sid : String),
       (c.delete_monitor ts sid).1.headers =
         some ⟨c.access_key, c.signature_version,
           c.sign (String.intercalate "\n"
             ["DELETE", "/v1/monitor-streams/" ++ sid, c.access_key, c.signature_version,
              ts]), ts⟩) ∧
    (∀ (c : ACRCloudConsole) (ts sid act : String),
       (c.action_monitor ts sid act).1.headers =
         some ⟨c.access_key, c.signature_version,
           c.sign (String.intercalate "\n"
             ["PUT", "/v1/monitor-streams/" ++ sid ++ "/" ++ act, c.access_key,
              c.signature_version, ts]), ts⟩) :=
  ⟨fun _ _ _ _ _ _ _ _ => rfl, fun _ _ _ _ => rfl, fun _ _ _ => rfl, fun _ _ _ => rfl,
   fun _ _ => rfl, fun _ _ _ _ _ _ _ _ => rfl, fun _ _ _ _ _ _ _ _ => rfl,
   fun _ _ _ => rfl, fun _ _ _ => rfl, fun _ _ _ => rfl, fun _ _ _ _ => rfl⟩

/-- C3: the claim says every signed console operation issues its HTTP call
with the same method it signs, and that `get_all_monitors` issues a GET. In
the source, `get_all_monitors` signs `"GET"` (line 249) but issues its one
call with `requests.put` (line 255): at the concrete input below the issued
verb is `"PUT"` while the signed canonical string carries `"GET"`, so the
request can never pass server-side signature verification — a slip in the
code, not in the claim. -/
theorem C3_get_all_monitors_method_bug :
    (ACRCloudConsole.get_all_monitors ⟨"K1", [97, 98, 99]⟩ "1000.0" "p").1.method = "PUT" ∧
    (ACRCloudConsole.get_all_monitors ⟨"K1", [97, 98, 99]⟩ "1000.0" "p").1.headers =
      some ⟨"K1", "1",
        ACRCloudConsole.sign ⟨"K1", [97, 98, 99]⟩
          (String.intercalate "\n" ["GET", "/v1/monitor-streams", "K1", "1", "1000.0"]),
        "1000.0"⟩ ∧
    ("PUT" : String) ≠ "GET" :=
  ⟨rfl, rfl, by decide⟩

/-- C4 counterexample: the claim asserts the default `buckets` field is the
exact text `[{"name":"ACRCloud Music"}]` with no space after the colon, but
`json.dumps` uses the default key separator `": "`, so the field sent is
`[{"name": "ACRCloud Music"}]`. -/
theorem C4_buckets_literal_counterexample :
    List.lookup "buckets"
        (ACRCloudConsole.add_project_defaults ⟨"K1", [97, 98, 99]⟩ "1000.0" "p").1.data =
      some (FormValue.s "[\x7b\"name\": \"ACRCloud Music\"\x7d]") ∧
    ("[\x7b\"name\": \"ACRCloud Music\"\x7d]" : String) ≠
      "[\x7b\"name\":\"ACRCloud Music\"\x7d]" := by
  constructor
  · decide
  · decide

/-- C4 (amended): when the optional arguments are omitted, `add_project`
sends type `"BM-ACRC"`, audio_type `2`, region `"ap-southeast-1"`, and the
buckets field as the `json.dumps` rendering `[{"name": "ACRCloud Music"}]`
(with the default `": "` key separator, i.e. a space after the colon), and
`add_monitor` sends `realtime=1` and `record=0` in its form body. -/
theorem C4_defaults_amended :
    (∀ (c : ACRCloudConsole) (ts p : String),
       (c.add_project_defaults ts p).1.data =
         [("name", FormValue.s p), ("region", FormValue.s "ap-southeast-1"),
          ("type", FormValue.s "BM-ACRC"),
          ("buckets", FormValue.s (jsonDumps [[("name", "ACRCloud Music")]])),
          ("audio_type", FormValue.i 2), ("external_id", FormValue.s "")]) ∧
    jsonDumps [[("name", "ACRCloud Music")]] = "[\x7b\"name\": \"ACRCloud Music\"\x7d]" ∧
    (∀ (c : ACRCloudConsole) (ts p sn u : String),
       (c.add_monitor_defaults ts p sn u).1.data =
         [("project_name", FormValue.s p), ("stream_name", FormValue.s sn),
          ("url", FormValue.s u), ("region", FormValue.s "ap-southeast-1"),
          ("realtime", FormValue.i 1), ("record", FormValue.i 0)]) :=
  ⟨fun _ _ _ => rfl, by decide, fun _ _ _ _ _ => rfl⟩

/-- C5: `pause_monitor` and `restart_monitor` are exactly
`action_monitor` at the fixed literals `"pause"` and `"restart"`: at the
same call time (same timestamp) the issued request and the returned value
coincide with those of `action_monitor`, with method PUT and path
`/v1/monitor-streams/{stream_id}/{action}`. -/
theorem C5_pause_restart_equiv :
    ∀ (c : ACRCloudConsole) (ts stream_id : String),
      c.pause_monitor ts stream_id = c.action_monitor ts stream_id "pause" ∧
      c.restart_monitor ts stream_id = c.action_monitor ts stream_id "restart" ∧
      (c.pause_monitor ts stream_id).1.method = "PUT" ∧
      (c.restart_monitor ts stream_id).1.method = "PUT" ∧
      (c.pause_monitor ts stream_id).1.url =
        "https://api.acrcloud.com/v1/monitor-streams/" ++ stream_id ++ "/pause" ∧
      (c.restart_monitor ts stream_id).1.url =
        "https://api.acrcloud.com/v1/monitor-streams/" ++ stream_id ++ "/restart" := by
  intro c ts sid
  refine ⟨rfl, rfl, rfl, rfl, ?_, ?_⟩ <;>
    · simp only [ACRCloudConsole.pause_monitor, ACRCloudConsole.restart_monitor,
        ACRCloudConsole.action_monitor, ACRCloudConsole.host]
      apply String.ext
      simp

/-- C6: `period_results` with the `end_time` argument omitted builds the
same request as `period_results(begin_time, "")`, and the query string then
ends with an empty `end_time` value. -/
theorem C6_period_results_default_end :
    ∀ (m : ACRCloudStreamMonitor) (begin_time : String),
      m.period_results_default begin_time = m.period_results begin_time "" ∧
      (m.period_results_default begin_time).1.url =
        "https://api.acrcloud.com/v1/monitor-streams/" ++ m.stream_id ++
          "/results?access_key=" ++ m.access_key ++ "&begin_time=" ++ begin_time ++
          "&end_time=" := by
  intro m bt
  refine ⟨rfl, ?_⟩
  simp only [ACRCloudStreamMonitor.period_results_default,
    ACRCloudStreamMonitor.period_results]
  apply String.ext
  simp

/-- C7: `last_results`, `current_results`, `multiple_last_results` and
`day_results` each issue a single unsigned GET to
`https://api.acrcloud.com/v1/monitor-streams/{stream_id}/results?access_key={access_key}`
followed by exactly the variant's extra query parameters (none,
`&type=current`, `&limit={limit}`, `&date={date}`), and each returns the
response body decoded as UTF-8 text. -/
theorem C7_results_requests :
    ∀ (m : ACRCloudStreamMonitor),
      ((m.last_results).1 = ⟨"GET",
          "https://api.acrcloud.com/v1/monitor-streams/" ++ m.stream_id ++
            "/results?access_key=" ++ m.access_key, none, []⟩) ∧
      (∀ r, (m.last_results).2 r = utf8Decode r.body) ∧
      ((m.current_results).1 = ⟨"GET",
          "https://api.acrcloud.com/v1/monitor-streams/" ++ m.stream_id ++
            "/results?access_key=" ++ m.access_key ++ "&type=current", none, []⟩) ∧
      (∀ r, (m.current_results).2 r = utf8Decode r.body) ∧
      (∀ limit : Int, (m.multiple_last_results limit).1 = ⟨"GET",
          "https://api.acrcloud.com/v1/monitor-streams/" ++ m.stream_id ++
            "/results?access_key=" ++ m.access_key ++ "&limit=" ++ toString limit,
          none, []⟩) ∧
      (∀ (limit : Int) (r : Response),
         (m.multiple_last_results limit).2 r = utf8Decode r.body) ∧
      (∀ date : String, (m.day_results date).1 = ⟨"GET",
          "https://api.acrcloud.com/v1/monitor-streams/" ++ m.stream_id ++
            "/results?access_key=" ++ m.access_key ++ "&date=" ++ date, none, []⟩) ∧
      (∀ (date : String) (r : Response), (m.day_results date).2 r = utf8Decode r.body) := by
  intro m
  exact ⟨rfl, fun _ => rfl, rfl, fun _ => rfl, fun _ => rfl, fun _ _ => rfl,
    fun _ => rfl, fun _ _ => rfl⟩

/-- C8: `month_results(month)` issues a single unsigned GET to the distinct
archive endpoint
`https://monitoring-result.acrcloud.com/{access_key}/{stream_id}/{month}.zip`
and returns the response object itself, not its body decoded as UTF-8
text. -/
theorem C8_month_results_archive :
    ∀ (m : ACRCloudStreamMonitor) (month : String),
      (m.month_results month).1 = ⟨"GET",
        "https://monitoring-result.acrcloud.com/" ++ m.access_key ++ "/" ++ m.stream_id ++
          "/" ++ month ++ ".zip", none, []⟩ ∧
      ∀ r : Response, (m.month_results month).2 r = r := by
  intro m mo
  exact ⟨rfl, fun _ => rfl⟩

/-- C9: no operation validates its inputs locally: `action_monitor` embeds
any action string verbatim in the path it requests (and therefore also in
the string it signs, see C2/C10), `multiple_last_results` embeds any
integer limit (also outside 1–100) in the query, and both return the
response body verbatim as UTF-8 text with no dependence on the status
code. -/
theorem C9_no_local_validation :
    (∀ (c : ACRCloudConsole) (ts stream_id action : String),
       (c.action_monitor ts stream_id action).1.url =
         "https://api.acrcloud.com/v1/monitor-streams/" ++ stream_id ++ "/" ++ action) ∧
    (∀ (m : ACRCloudStreamMonitor) (limit : Int),
       (m.multiple_last_results limit).1.url =
         "https://api.acrcloud.com/v1/monitor-streams/" ++ m.stream_id ++
           "/results?access_key=" ++ m.access_key ++ "&limit=" ++ toString limit) ∧
    (∀ (c : ACRCloudConsole) (ts stream_id action : String) (r : Response),
       (c.action_monitor ts stream_id action).2 r = utf8Decode r.body) ∧
    (∀ (m : ACRCloudStreamMonitor) (limit : Int) (status1 status2 : Nat)
       (body : List Nat),
       (m.multiple_last_results limit).2 ⟨status1, body⟩ =
         (m.multiple_last_results limit).2 ⟨status2, body⟩) := by
  refine ⟨fun c ts sid act => ?_, fun m l => rfl, fun _ _ _ _ _ => rfl,
    fun _ _ _ _ _ => rfl⟩
  simp only [ACRCloudConsole.action_monitor, ACRCloudConsole.host]
  apply String.ext
  simp

/-- C10: every URL and URI path is built by raw string interpolation with
no percent-encoding: caller-supplied values (stream_id, action, month,
project_name, access_key) are embedded verbatim into the requested URL and,
for console operations, into the string that gets signed; consequently a
value containing `/` changes the path actually requested, as the final
collision between two different `(stream_id, action)` pairs shows. -/
theorem C10_verbatim_interpolation :
    (∀ (c : ACRCloudConsole) (ts stream_id action : String),
       (c.action_monitor ts stream_id action).1.url =
         "https://api.acrcloud.com/v1/monitor-streams/" ++ stream_id ++ "/" ++ action ∧
       (c.action_monitor ts stream_id action).1.headers =
         some ⟨c.access_key, c.signature_version,
           c.sign (String.intercalate "\n"
             ["PUT", "/v1/monitor-streams/" ++ stream_id ++ "/" ++ action, c.access_key,
              c.signature_version, ts]), ts⟩) ∧
    (∀ m : ACRCloudStreamMonitor,
       (m.last_results).1.url = "https://api.acrcloud.com/v1/monitor-streams/" ++
         m.stream_id ++ "/results?access_key=" ++ m.access_key) ∧
    (∀ (m : ACRCloudStreamMonitor) (month : String),
       (m.month_results month).1.url = "https://monitoring-result.acrcloud.com/" ++
         m.access_key ++ "/" ++ m.stream_id ++ "/" ++ month ++ ".zip") ∧
    (∀ (c : ACRCloudConsole) (ts project_name : String) (bk : Option Buckets),
       (c.update_project ts project_name bk).1.url =
         "https://api.acrcloud.com/v1/projects/" ++ project_name) ∧
    (∀ (c : ACRCloudConsole) (ts : String),
       (c.action_monitor ts "a" "b/c").1.url = (c.action_monitor ts "a/b" "c").1.url) := by
  refine ⟨fun c ts sid act => ⟨?_, rfl⟩, fun m => rfl, fun m mo => rfl,
    fun c ts p bk => ?_, fun c ts => ?_⟩ <;>
    · simp only [ACRCloudConsole.action_monitor, ACRCloudConsole.update_project,
        ACRCloudConsole.host]
      apply String.ext
      simp
